import Mathlib

/-!
Shallow embedding of the asset-resolution, tile-compositing and mosaic-search
logic of `titiler/stacapi` (files `asset_reader.py`, `assets_reader.py`,
`backend.py`), together with theorems settling the frozen claims about it.

External collaborators (the rio-tiler decoding backends, the spatial mixin's
`tile_exists`, expression parsing/evaluation, the `mosaic_reader` merge
algorithm and the `cachetools` TTL cache) are modelled either as opaque
function parameters or, where a claim needs their behaviour, as definitions
modelled from the specification (each marked `Modelled from the spec:`).
-/

namespace TitilerStacapi

/-- Failure kinds raised by the embedded code paths.  Each constructor mirrors
one exception class used in the source (`rio_tiler.errors.*`, Python's
`KeyError`/`TypeError`, `NotImplementedError`, `cogeo_mosaic` errors). -/
inductive Err where
  | invalidAssetName : String → Err
  | keyError : String → Err
  | notImplemented : Err
  | tileOutsideBounds : Err
  | missingAssets : Err
  | assetAsBand : Err
  | noAssetFound : Err
  | typeError : Err
deriving DecidableEq, Repr

/-- Per-band `statistics` object of the `raster:bands` STAC extension.
`minimum`/`maximum` are `none` when the corresponding key is absent from the
band's statistics dict (values are modelled as integers; only presence and
identity matter to the embedded logic). -/
structure BandStatistics where
  minimum : Option Int
  maximum : Option Int
deriving DecidableEq, Repr

/-- One entry of an asset's `raster:bands` list; `statistics = none` models a
band without a `statistics` key (the code reads `b.get("statistics", {})`). -/
structure RasterBand where
  statistics : Option BandStatistics
deriving DecidableEq, Repr

/-- An asset record of a STAC item (`input["assets"][name]`).
`alternate` is the `alternate` extension mapping, alternate-name to href
(an asset without the key behaves like one with an empty mapping, since the
code only ever indexes into it).  `rasterBands = []` models both an absent
`raster:bands` key and an empty list: both are falsy in
`if bands := asset_info.get("raster:bands"):`. -/
structure Asset where
  href : String
  alternate : List (String × String)
  type : Option String
  fileHeaderSize : Option Nat
  rasterBands : List RasterBand
deriving DecidableEq, Repr

/-- A STAC item as consumed by the readers and the mosaic backend: an
identifier and the name-to-asset mapping (`input["id"]`, `input["assets"]`). -/
structure Item where
  id : String
  assets : List (String × Asset)
deriving DecidableEq, Repr

/-- The `AssetInfo` TypedDict of `models.py`, as produced by
`_get_asset_info`: resolved url, GDAL environment options, optional media
type, optional all-or-nothing per-band statistics. -/
structure AssetInfo where
  url : String
  env : List (String × Nat)
  type : Option String
  dataset_statistics : Option (List (Int × Int))
deriving DecidableEq, Repr

/-- The two decoding-backend kinds the reader selection can dispatch to:
`rio_tiler.io.Reader` and the Xarray (multidimensional array) reader. -/
inductive ReaderKind where
  | raster
  | xarray
deriving DecidableEq, Repr

/-- The fixed list of array/multidimensional media types tested by
`_get_reader` (identical in `asset_reader.py`, `assets_reader.py`). -/
def xarrayTypes : List String :=
  ["application/x-hdf5", "application/x-hdf", "application/vnd.zarr",
   "application/x-netcdf", "application/netcdf"]

/-- `AssetReader._get_reader` (asset_reader.py lines 72-85): dispatches on the
descriptor's media type.  The `t ≠ ""` conjunct mirrors Python's truthiness
guard `if asset_type and asset_type in [...]`. -/
def AssetReader.getReader (info : AssetInfo) : ReaderKind :=
  match info.type with
  | some t => if t ≠ "" ∧ t ∈ xarrayTypes then .xarray else .raster
  | none => .raster

/-- `AssetsReader._get_reader` (assets_reader.py lines 79-92): same
classification, but the array branch raises `NotImplementedError` instead of
returning a reader kind. -/
def AssetsReader.getReader (info : AssetInfo) : Except Err ReaderKind :=
  match info.type with
  | some t =>
    if t ≠ "" ∧ t ∈ xarrayTypes then .error .notImplemented else .ok .raster
  | none => .ok .raster

/-- The spec-side classification predicate: the descriptor's media type is a
string belonging to the configured array/multidimensional MIME-type set. -/
def isArrayMediaType (t : Option String) : Prop :=
  ∃ s, t = some s ∧ s ∈ xarrayTypes

instance (t : Option String) : Decidable (isArrayMediaType t) := by
  unfold isArrayMediaType
  cases t with
  | none => exact .isFalse (by simp)
  | some s =>
    by_cases h : s ∈ xarrayTypes
    · exact .isTrue ⟨s, rfl, h⟩
    · exact .isFalse (by simp [h])

theorem xarrayTypes_ne_empty : "" ∉ xarrayTypes := by decide

/-- `AssetReader.getReader` returns the array kind exactly on array media
types. -/
theorem AssetReader.getReader_eq_xarray_iff (info : AssetInfo) :
    AssetReader.getReader info = .xarray ↔ isArrayMediaType info.type := by
  unfold AssetReader.getReader isArrayMediaType
  cases htype : info.type with
  | none => simp
  | some t =>
    by_cases ht : t ≠ "" ∧ t ∈ xarrayTypes
    · simp only [if_pos ht]
      exact ⟨fun _ => ⟨t, rfl, ht.2⟩, fun _ => trivial⟩
    · simp only [if_neg ht]
      constructor
      · intro h; exact absurd h (by simp)
      · rintro ⟨s, hs, hmem⟩
        cases hs
        exact absurd ⟨fun he => xarrayTypes_ne_empty (he ▸ hmem), hmem⟩ ht

/-- `AssetsReader.getReader` characterised: raster on non-array types, a
`NotImplementedError` failure on array types. -/
theorem AssetsReader.getReader_spec (info : AssetInfo) :
    (AssetsReader.getReader info = .ok .raster ↔ ¬ isArrayMediaType info.type)
      ∧ (AssetsReader.getReader info = .error .notImplemented ↔
          isArrayMediaType info.type) := by
  unfold AssetsReader.getReader isArrayMediaType
  cases htype : info.type with
  | none => simp
  | some t =>
    by_cases ht : t ≠ "" ∧ t ∈ xarrayTypes
    · simp only [if_pos ht]
      refine ⟨⟨fun h => absurd h (by simp), fun h => absurd ⟨t, rfl, ht.2⟩ h⟩, ?_⟩
      exact ⟨fun _ => ⟨t, rfl, ht.2⟩, fun _ => trivial⟩
    · simp only [if_neg ht]
      refine ⟨⟨fun _ => ?_, fun _ => trivial⟩, ?_⟩
      · rintro ⟨s, hs, hmem⟩
        cases hs
        exact absurd ⟨fun he => xarrayTypes_ne_empty (he ▸ hmem), hmem⟩ ht
      · constructor
        · intro h; exact absurd h (by simp)
        · rintro ⟨s, hs, hmem⟩
          cases hs
          exact absurd ⟨fun he => xarrayTypes_ne_empty (he ▸ hmem), hmem⟩ ht

/-- C1: the claim as stated is false: the `AssetsReader._get_reader` variant
(one of the two cited reader-selection functions) is not total — on the array
media type `application/x-netcdf` it fails with `NotImplementedError` instead
of returning the array reader kind. -/
theorem c1_counterexample :
    AssetsReader.getReader
        { url := "https://file.nc", env := [],
          type := some "application/x-netcdf", dataset_statistics := none }
      = .error .notImplemented := rfl

/-- C1 (amended): `AssetReader._get_reader` is total and returns the array
reader kind exactly when the media type is a string in the configured
array/multidimensional MIME-type set (raster otherwise, including absent or
unknown types); the `AssetsReader._get_reader` variant classifies the same
way but fails with a `NotImplementedError` on array types instead of
returning the array kind, returning the raster kind for every other type. -/
theorem c1_reader_selection (info : AssetInfo) :
    (AssetReader.getReader info = .xarray ↔ isArrayMediaType info.type)
      ∧ (AssetReader.getReader info = .raster ↔ ¬ isArrayMediaType info.type)
      ∧ (AssetsReader.getReader info = .ok .raster ↔ ¬ isArrayMediaType info.type)
      ∧ (AssetsReader.getReader info = .error .notImplemented ↔
          isArrayMediaType info.type) := by
  obtain ⟨h₁, h₂⟩ := AssetsReader.getReader_spec info
  refine ⟨AssetReader.getReader_eq_xarray_iff info, ?_, h₁, h₂⟩
  rw [← AssetReader.getReader_eq_xarray_iff info]
  cases h : AssetReader.getReader info <;> simp [h]

/-! ## Asset descriptor resolution (`_get_asset_info`) -/

/-- The `STACSettings` configuration consulted by `_get_asset_info`
(`stac_config.alternate_url`). -/
structure STACSettings where
  alternate_url : Option String
deriving DecidableEq, Repr

/-- Python truthiness of the walrus guard
`if alternate := stac_config.alternate_url:` — `None` and the empty string
both skip the alternate branch. -/
def STACSettings.alternateTruthy (cfg : STACSettings) : Option String :=
  match cfg.alternate_url with
  | some s => if s = "" then none else some s
  | none => none

/-- The (minimum, maximum) pair of one band, when the band's statistics
declare both keys (`{"minimum", "maximum"}.issubset(b.get("statistics", {}))`
followed by the extraction). -/
def bandMinMax (b : RasterBand) : Option (Int × Int) :=
  match b.statistics with
  | some s =>
    match s.minimum, s.maximum with
    | some mn, some mx => some (mn, mx)
    | _, _ => none
  | none => none

/-- The `stats` list comprehension of `_get_asset_info`: the (minimum,
maximum) pairs of those bands declaring both. -/
def bandStats (bands : List RasterBand) : List (Int × Int) :=
  bands.filterMap bandMinMax

/-- The all-or-nothing `dataset_statistics` computation: populated only when
`raster:bands` is truthy (non-empty) and `len(stats) == len(bands)`. -/
def datasetStatistics (bands : List RasterBand) : Option (List (Int × Int)) :=
  if bands ≠ [] ∧ (bandStats bands).length = bands.length then
    some (bandStats bands)
  else
    none

/-- Construction of the `AssetInfo` dict from an asset record and the
resolved url (the tail of `_get_asset_info` after url resolution).  The
guards `t ≠ ""` and `h ≠ 0` mirror Python truthiness of
`if asset_info.get("type"):` and `if header_size := ...:`. -/
def mkAssetInfo (a : Asset) (url : String) : AssetInfo :=
  { url := url
    env :=
      match a.fileHeaderSize with
      | some h => if h ≠ 0 then [("GDAL_INGESTED_BYTES_AT_OPEN", h)] else []
      | none => []
    type :=
      match a.type with
      | some t => if t ≠ "" then some t else none
      | none => none
    dataset_statistics := datasetStatistics a.rasterBands }

/-- `AssetReader._get_asset_info` (asset_reader.py lines 87-126): validates
the asset name, resolves the url (indexing `asset_info["alternate"][alt]`
raises `KeyError` when the alternate option is set but the key is absent),
and assembles the descriptor. -/
def AssetReader.getAssetInfo (cfg : STACSettings) (item : Item) (asset : String) :
    Except Err AssetInfo :=
  match item.assets.lookup asset with
  | none => .error (.invalidAssetName asset)
  | some a =>
    match cfg.alternateTruthy with
    | some alt =>
      match a.alternate.lookup alt with
      | none => .error (.keyError alt)
      | some href => .ok (mkAssetInfo a href)
    | none => .ok (mkAssetInfo a a.href)

/-- Every successful resolution produces `mkAssetInfo` of the looked-up
asset, so its `dataset_statistics` is `datasetStatistics` of its bands. -/
theorem AssetReader.getAssetInfo_ok (cfg : STACSettings) (item : Item)
    (asset : String) (a : Asset) (info : AssetInfo)
    (ha : item.assets.lookup asset = some a)
    (hok : AssetReader.getAssetInfo cfg item asset = .ok info) :
    info.dataset_statistics = datasetStatistics a.rasterBands := by
  unfold AssetReader.getAssetInfo at hok
  cases halt : cfg.alternateTruthy with
  | none =>
    simp only [ha, halt] at hok
    cases hok
    rfl
  | some alt =>
    cases hlk : a.alternate.lookup alt with
    | none => simp [ha, halt, hlk] at hok
    | some href =>
      simp only [ha, halt, hlk] at hok
      cases hok
      rfl

/-- A concrete item whose only asset has no `alternate` extension. -/
def cogAssetNoAlt : Asset :=
  { href := "https://example.com/cog.tif", alternate := [],
    type := some "image/tiff", fileHeaderSize := none, rasterBands := [] }

/-- The item holding `cogAssetNoAlt` under the name `cog`. -/
def cogItemNoAlt : Item :=
  { id := "item-1", assets := [("cog", cogAssetNoAlt)] }

/-- C2: the claim as stated is false: with the alternate-URL option set to
`s3` and an asset whose `alternate` mapping lacks that key, resolution does
not fall back to the primary href — it fails with a `KeyError`. -/
theorem c2_counterexample :
    AssetReader.getAssetInfo { alternate_url := some "s3" } cogItemNoAlt "cog"
      = .error (.keyError "s3") := rfl

/-- C2 (amended): for every valid (item, assetName) pair, the resolved
descriptor's URL is the alternate href when the alternate-URL option is set
(non-empty) and names a key present under the asset's `alternate` mapping;
it is the primary href when the option is unset; and when the option is set
but the named key is absent, resolution fails with a `KeyError` rather than
falling back to the primary href. -/
theorem c2_url_resolution (cfg : STACSettings) (item : Item) (asset : String)
    (a : Asset) (ha : item.assets.lookup asset = some a) :
    (cfg.alternateTruthy = none →
        AssetReader.getAssetInfo cfg item asset = .ok (mkAssetInfo a a.href)
          ∧ (mkAssetInfo a a.href).url = a.href)
      ∧ (∀ alt href, cfg.alternateTruthy = some alt →
          a.alternate.lookup alt = some href →
          AssetReader.getAssetInfo cfg item asset = .ok (mkAssetInfo a href)
            ∧ (mkAssetInfo a href).url = href)
      ∧ (∀ alt, cfg.alternateTruthy = some alt →
          a.alternate.lookup alt = none →
          AssetReader.getAssetInfo cfg item asset = .error (.keyError alt)) := by
  refine ⟨fun hnone => ?_, fun alt href halt hlk => ?_, fun alt halt hlk => ?_⟩
  · unfold AssetReader.getAssetInfo
    simp [ha, hnone, mkAssetInfo]
  · unfold AssetReader.getAssetInfo
    simp [ha, halt, hlk, mkAssetInfo]
  · unfold AssetReader.getAssetInfo
    simp [ha, halt, hlk]

/-- Witness for `c2_url_resolution` at concrete inputs: an asset with an
`s3` alternate resolves to the alternate href when the option names `s3`,
and to the primary href when the option is unset. -/
theorem c2_url_resolution_witness :
    (AssetReader.getAssetInfo { alternate_url := some "s3" }
        { id := "item-2",
          assets := [("cog",
            { href := "https://example.com/cog.tif",
              alternate := [("s3", "s3://bucket/cog.tif")],
              type := some "image/tiff", fileHeaderSize := none,
              rasterBands := [] })] } "cog"
      = .ok (mkAssetInfo
          { href := "https://example.com/cog.tif",
            alternate := [("s3", "s3://bucket/cog.tif")],
            type := some "image/tiff", fileHeaderSize := none,
            rasterBands := [] } "s3://bucket/cog.tif"))
    ∧ (AssetReader.getAssetInfo { alternate_url := none } cogItemNoAlt "cog"
      = .ok (mkAssetInfo cogAssetNoAlt cogAssetNoAlt.href)) := by
  constructor
  · exact ((c2_url_resolution { alternate_url := some "s3" }
      { id := "item-2",
        assets := [("cog",
          { href := "https://example.com/cog.tif",
            alternate := [("s3", "s3://bucket/cog.tif")],
            type := some "image/tiff", fileHeaderSize := none,
            rasterBands := [] })] } "cog" _ rfl).2.1 "s3"
      "s3://bucket/cog.tif" rfl rfl).1
  · exact ((c2_url_resolution { alternate_url := none } cogItemNoAlt "cog"
      cogAssetNoAlt rfl).1 rfl).1

/-- The `stats` list keeps every band exactly when every band declares both
minimum and maximum. -/
theorem bandStats_length_eq_iff (bs : List RasterBand) :
    (bandStats bs).length = bs.length ↔ ∀ b ∈ bs, (bandMinMax b).isSome := by
  induction bs with
  | nil => simp [bandStats]
  | cons b rest ih =>
    cases h : bandMinMax b with
    | some v =>
      simp only [bandStats, List.filterMap_cons, h, List.length_cons,
        Nat.add_right_cancel_iff, List.mem_cons]
      rw [show (List.filterMap bandMinMax rest).length = (bandStats rest).length from rfl, ih]
      constructor
      · rintro hall b' (rfl | hb)
        · simp [h]
        · exact hall b' hb
      · intro hall b' hb
        exact hall b' (Or.inr hb)
    | none =>
      simp only [bandStats, List.filterMap_cons, h, List.length_cons]
      constructor
      · intro hlen
        have hle : (List.filterMap bandMinMax rest).length ≤ rest.length :=
          List.length_filterMap_le bandMinMax rest
      -- the lengths cannot match: the filtered list lost `b`
        omega
      · intro hall
        have := hall b (List.mem_cons_self b rest)
        rw [h] at this
        simp at this

/-- C3: an asset's resolved `dataset_statistics` is present if and only if
every declared raster band carries both a minimum and a maximum statistic;
when present its length equals the number of declared bands, and when at
least one band lacks a statistic it is entirely absent. -/
theorem c3_dataset_statistics (cfg : STACSettings) (item : Item)
    (asset : String) (a : Asset) (info : AssetInfo)
    (ha : item.assets.lookup asset = some a)
    (hb : a.rasterBands ≠ [])
    (hok : AssetReader.getAssetInfo cfg item asset = .ok info) :
    (info.dataset_statistics.isSome ↔
        ∀ b ∈ a.rasterBands, (bandMinMax b).isSome)
      ∧ (∀ stats, info.dataset_statistics = some stats →
          stats.length = a.rasterBands.length) := by
  have hstats := AssetReader.getAssetInfo_ok cfg item asset a info ha hok
  rw [hstats]
  unfold datasetStatistics
  by_cases hlen : (bandStats a.rasterBands).length = a.rasterBands.length
  · rw [if_pos ⟨hb, hlen⟩]
    refine ⟨?_, fun stats hsome => ?_⟩
    · simp only [Option.isSome_some, true_iff]
      exact (bandStats_length_eq_iff a.rasterBands).mp hlen
    · cases hsome
      exact hlen
  · rw [if_neg (by exact fun hc => hlen hc.2)]
    refine ⟨?_, fun stats hsome => by cases hsome⟩
    simp only [Option.isSome_none, Bool.false_eq_true, false_iff]
    intro hall
    exact hlen ((bandStats_length_eq_iff a.rasterBands).mpr hall)

/-- A two-band asset whose bands both declare minimum and maximum. -/
def statsAsset : Asset :=
  { href := "https://example.com/data.tif", alternate := [],
    type := some "image/tiff", fileHeaderSize := none,
    rasterBands :=
      [{ statistics := some { minimum := some 0, maximum := some 255 } },
       { statistics := some { minimum := some 1, maximum := some 99 } }] }

/-- The item holding `statsAsset` under the name `data`. -/
def statsItem : Item :=
  { id := "item-3", assets := [("data", statsAsset)] }

/-- Witness for `c3_dataset_statistics`: the two-band asset with complete
statistics yields a present, two-element `dataset_statistics`. -/
theorem c3_dataset_statistics_witness :
    (mkAssetInfo statsAsset statsAsset.href).dataset_statistics.isSome
      ∧ ∀ stats,
          (mkAssetInfo statsAsset statsAsset.href).dataset_statistics
            = some stats → stats.length = statsAsset.rasterBands.length := by
  have h := c3_dataset_statistics { alternate_url := none } statsItem "data"
    statsAsset (mkAssetInfo statsAsset statsAsset.href) rfl (by decide) rfl
  exact ⟨h.1.mpr (by decide), h.2⟩

/-! ## Item asset compositing (`AssetReader.tile`) -/

/-- The observable part of a `rio_tiler.models.ImageData` the embedded logic
manipulates: the per-band names.  Pixel arrays, masks and metadata stay with
the external decoding backend. -/
structure ImageData where
  band_names : List String
deriving DecidableEq, Repr

/-- Non-fatal warnings emitted by `tile()` (`warnings.warn`). -/
inductive WarningKind where
  | expressionMixing
deriving DecidableEq, Repr

/-- Python truthiness of the `expression` argument: `None` and the empty
string are both falsy in `if assets and expression:` and `if expression:`. -/
def exprTruthy : Option String → Option String
  | some e => if e = "" then none else some e
  | none => none

/-- The band-merge performed by `rio_tiler.tasks.multi_arrays`: per-asset
band names are concatenated in asset-selection order. -/
def mergeImages (imgs : List ImageData) : ImageData :=
  { band_names := (imgs.map ImageData.band_names).flatten }

/-- The per-asset `_reader` closure inside `AssetReader.tile` (asset_reader.py
lines 182-216): resolve the descriptor, select the reader, raise
`NotImplementedError` when the selected reader is the Xarray one, otherwise
read through the external raster backend (`backend`) and rename bands per
the asset-as-band rule. -/
def AssetReader.readAsset (backend : AssetInfo → Int → Int → Int → ImageData)
    (cfg : STACSettings) (item : Item) (asset_as_band : Bool) (x y z : Int)
    (asset : String) : Except Err ImageData :=
  match AssetReader.getAssetInfo cfg item asset with
  | .error e => .error e
  | .ok info =>
    match AssetReader.getReader info with
    | .xarray => .error .notImplemented
    | .raster =>
      let data := backend info x y z
      if asset_as_band then
        if data.band_names.length > 1 then .error .assetAsBand
        else .ok { band_names := [asset] }
      else
        .ok { band_names := data.band_names.map fun n => asset ++ "_" ++ n }

/-- The fan-out of `multi_arrays` over the selected assets, with failure
propagation: each asset is read by the `_reader` closure and the sub-images
are collected in asset-selection order. -/
def AssetReader.readAssets (backend : AssetInfo → Int → Int → Int → ImageData)
    (cfg : STACSettings) (item : Item) (asset_as_band : Bool) (x y z : Int) :
    List String → Except Err (List ImageData)
  | [] => .ok []
  | a :: rest =>
    match AssetReader.readAsset backend cfg item asset_as_band x y z a with
    | .error e => .error e
    | .ok img =>
      match AssetReader.readAssets backend cfg item asset_as_band x y z rest with
      | .error e => .error e
      | .ok imgs => .ok (img :: imgs)

/-- External collaborators consumed by `AssetReader.tile`: the spatial
mixin's `tile_exists`, rio-tiler's `parse_expression` (asset names referenced
by a band-math expression), the raster decoding backend, and rio-tiler's
`apply_expression` evaluation over the merged bands. -/
structure ReaderEnv where
  tileExists : Int → Int → Int → Bool
  parse_expression : String → Bool → List String
  rasterTile : AssetInfo → Int → Int → Int → ImageData
  apply_expression : String → ImageData → ImageData

/-- `AssetReader.tile` (asset_reader.py lines 128-222): bounds check first,
then the assets/expression selection with its mixing warning, then the
per-asset reads and the merge, and finally expression evaluation when an
expression was supplied.  The first component of the result collects the
non-fatal warnings emitted; the second carries the merged image together
with the list of assets actually read. -/
def AssetReader.tile (env : ReaderEnv) (cfg : STACSettings) (item : Item)
    (tile_x tile_y tile_z : Int) (assets : List String)
    (expression : Option String) (asset_as_band : Bool) :
    List WarningKind × Except Err (ImageData × List String) :=
  if env.tileExists tile_x tile_y tile_z = false then
    ([], .error .tileOutsideBounds)
  else
    let exprVal := exprTruthy expression
    let warns :=
      if assets ≠ [] ∧ exprVal.isSome then [WarningKind.expressionMixing] else []
    let selected :=
      match exprVal with
      | some e => env.parse_expression e asset_as_band
      | none => assets
    if selected = [] then (warns, .error .missingAssets)
    else
      (warns,
        match AssetReader.readAssets env.rasterTile cfg item asset_as_band
            tile_x tile_y tile_z selected with
        | .error e => .error e
        | .ok imgs =>
          match exprVal with
          | some e => .ok (env.apply_expression e (mergeImages imgs), selected)
          | none => .ok (mergeImages imgs, selected))

/-- C9: for every tile coordinate outside the item's declared bounds, the
item-level `tile()` call fails with `TileOutsideBounds` whatever assets,
expression or asset-as-band options are requested — including invalid asset
names and an empty asset list — and before any warning is emitted. -/
theorem c9_bounds_check_first (env : ReaderEnv) (cfg : STACSettings)
    (item : Item) (x y z : Int) (assets : List String)
    (expression : Option String) (aab : Bool)
    (h : env.tileExists x y z = false) :
    AssetReader.tile env cfg item x y z assets expression aab
      = ([], .error .tileOutsideBounds) := by
  unfold AssetReader.tile
  rw [h]
  simp

/-- An environment whose spatial check always fails. -/
def outOfBoundsEnv : ReaderEnv :=
  { tileExists := fun _ _ _ => false
    parse_expression := fun _ _ => []
    rasterTile := fun _ _ _ _ => { band_names := [] }
    apply_expression := fun _ img => img }

/-- Witness for `c9_bounds_check_first`: outside the bounds, even a request
naming an invalid asset fails with the bounds violation. -/
theorem c9_bounds_check_first_witness :
    AssetReader.tile outOfBoundsEnv { alternate_url := none } cogItemNoAlt
        0 0 0 ["not-an-asset"] (some "cog") true
      = ([], .error .tileOutsideBounds) :=
  c9_bounds_check_first outOfBoundsEnv { alternate_url := none } cogItemNoAlt
    0 0 0 ["not-an-asset"] (some "cog") true rfl

/-- C4: for an asset whose descriptor classifies to the array reader, the
per-asset read fails with the `NotImplementedError`-class failure for every
possible raster backend (so it never falls back to reading through the
raster backend), the `AssetsReader` selection variant fails the same way,
and the item-level `tile()` call over that asset propagates the failure. -/
theorem c4_array_asset_not_implemented
    (backend : AssetInfo → Int → Int → Int → ImageData)
    (cfg : STACSettings) (item : Item) (aab : Bool) (x y z : Int)
    (asset : String) (info : AssetInfo)
    (hinfo : AssetReader.getAssetInfo cfg item asset = .ok info)
    (hkind : AssetReader.getReader info = .xarray) :
    AssetReader.readAsset backend cfg item aab x y z asset
        = .error .notImplemented
      ∧ AssetsReader.getReader info = .error .notImplemented
      ∧ ∀ env : ReaderEnv, env.tileExists x y z = true →
          (AssetReader.tile env cfg item x y z [asset] none aab).2
            = .error .notImplemented := by
  have hr : ∀ bk : AssetInfo → Int → Int → Int → ImageData,
      AssetReader.readAsset bk cfg item aab x y z asset
        = .error .notImplemented := by
    intro bk
    unfold AssetReader.readAsset
    simp only [hinfo, hkind]
  refine ⟨hr backend,
    (AssetsReader.getReader_spec info).2.mpr
      ((AssetReader.getReader_eq_xarray_iff info).mp hkind),
    fun env henv => ?_⟩
  unfold AssetReader.tile
  rw [henv]
  simp [exprTruthy, AssetReader.readAssets, hr env.rasterTile]

/-- Witness for `c4_array_asset_not_implemented`: a concrete netcdf asset. -/
def netcdfAsset : Asset :=
  { href := "https://example.com/data.nc", alternate := [],
    type := some "application/x-netcdf", fileHeaderSize := none,
    rasterBands := [] }

/-- The item holding `netcdfAsset` under the name `netcdf`. -/
def netcdfItem : Item :=
  { id := "item-nc", assets := [("netcdf", netcdfAsset)] }

/-- Witness for `c4_array_asset_not_implemented` at the concrete netcdf
item. -/
theorem c4_array_asset_not_implemented_witness :
    AssetReader.readAsset (fun _ _ _ _ => { band_names := ["b1"] })
        { alternate_url := none } netcdfItem false 0 0 0 "netcdf"
      = .error .notImplemented :=
  (c4_array_asset_not_implemented (fun _ _ _ _ => { band_names := ["b1"] })
    { alternate_url := none } netcdfItem false 0 0 0 "netcdf"
    (mkAssetInfo netcdfAsset netcdfAsset.href) rfl rfl).1

/-- Modelled from the spec: the external single-asset raster decoding
backend (out of scope for the source, §1/§4.3) returns a decoded sub-image
whose band labels are the 1-based band indexes, so that composing them with
the asset name per §3 yields `"{asset}_{band_index}"`.  `bandCount` gives
the number of bands the backend decodes for a descriptor. -/
def specRasterBackend (bandCount : AssetInfo → Nat) :
    AssetInfo → Int → Int → Int → ImageData :=
  fun info _ _ _ =>
    { band_names := (List.range (bandCount info)).map fun i => toString (i + 1) }

/-- C5: for a raster-classified asset read through the spec's backend, the
asset-as-band mode fails with `AssetAsBandError` on a multi-band sub-image,
relabels a single-band sub-image with the bare asset name, and the default
mode labels every band `"{asset}_{band_index}"`. -/
theorem c5_band_naming (bc : AssetInfo → Nat) (cfg : STACSettings)
    (item : Item) (x y z : Int) (asset : String) (info : AssetInfo)
    (hinfo : AssetReader.getAssetInfo cfg item asset = .ok info)
    (hkind : AssetReader.getReader info = .raster) :
    (1 < bc info →
        AssetReader.readAsset (specRasterBackend bc) cfg item true x y z asset
          = .error .assetAsBand)
      ∧ (bc info = 1 →
        AssetReader.readAsset (specRasterBackend bc) cfg item true x y z asset
          = .ok { band_names := [asset] })
      ∧ AssetReader.readAsset (specRasterBackend bc) cfg item false x y z asset
          = .ok { band_names :=
              (List.range (bc info)).map fun i =>
                asset ++ "_" ++ toString (i + 1) } := by
  have hlen : ((specRasterBackend bc info x y z).band_names).length = bc info := by
    simp [specRasterBackend]
  refine ⟨fun hgt => ?_, fun heq => ?_, ?_⟩
  · unfold AssetReader.readAsset
    simp only [hinfo, hkind]
    simp only [hlen]
    rw [if_pos hgt]
    simp
  · unfold AssetReader.readAsset
    simp only [hinfo, hkind]
    simp only [hlen, heq]
    simp
  · unfold AssetReader.readAsset
    simp only [hinfo, hkind]
    simp [specRasterBackend, List.map_map, Function.comp]

/-- Witness for `c5_band_naming`: a single-band raster asset named `cog`
yields band name `cog_1` in default mode and `cog` in asset-as-band mode. -/
theorem c5_band_naming_witness :
    AssetReader.readAsset (specRasterBackend fun _ => 1)
        { alternate_url := none } cogItemNoAlt false 0 0 0 "cog"
      = .ok { band_names := ["cog_1"] }
    ∧ AssetReader.readAsset (specRasterBackend fun _ => 1)
        { alternate_url := none } cogItemNoAlt true 0 0 0 "cog"
      = .ok { band_names := ["cog"] } := by
  have h := c5_band_naming (fun _ => 1) { alternate_url := none } cogItemNoAlt
    0 0 0 "cog" (mkAssetInfo cogAssetNoAlt cogAssetNoAlt.href) rfl rfl
  refine ⟨?_, h.2.1 rfl⟩
  rw [h.2.2]
  rfl

/-- C6: when both `assets` and `expression` are passed (both truthy), exactly
one `ExpressionMixingWarning` is emitted, the result is identical to the one
obtained with no `assets` at all (the argument is ignored: the assets
actually read are exactly those parsed from the expression), and on success
the image is the expression applied over the bands merged from the
expression's assets. -/
theorem c6_expression_wins (env : ReaderEnv) (cfg : STACSettings)
    (item : Item) (x y z : Int) (assets : List String) (e : String)
    (aab : Bool) (hT : env.tileExists x y z = true)
    (hA : assets ≠ []) (hE : e ≠ "") :
    (AssetReader.tile env cfg item x y z assets (some e) aab).1
        = [WarningKind.expressionMixing]
      ∧ (AssetReader.tile env cfg item x y z assets (some e) aab).2
          = (AssetReader.tile env cfg item x y z [] (some e) aab).2
      ∧ (env.parse_expression e aab ≠ [] →
          (AssetReader.tile env cfg item x y z assets (some e) aab).2
            = match AssetReader.readAssets env.rasterTile cfg item aab x y z
                  (env.parse_expression e aab) with
              | .error er => .error er
              | .ok imgs =>
                .ok (env.apply_expression e (mergeImages imgs),
                  env.parse_expression e aab)) := by
  unfold AssetReader.tile
  rw [hT]
  by_cases hS : env.parse_expression e aab = []
  · refine ⟨?_, ?_, fun hc => absurd hS hc⟩ <;>
      simp [exprTruthy, hE, hA, hS]
  · refine ⟨?_, ?_, fun _ => ?_⟩ <;>
      simp [exprTruthy, hE, hA, hS]

/-- A demonstration environment: the tile is inside bounds, the expression
parser extracts the asset `cog`, the backend decodes one band per asset, and
expression evaluation is the identity. -/
def demoEnv : ReaderEnv :=
  { tileExists := fun _ _ _ => true
    parse_expression := fun _ _ => ["cog"]
    rasterTile := specRasterBackend fun _ => 1
    apply_expression := fun _ img => img }

/-- Witness for `c6_expression_wins`: passing `assets=["b04"]` together with
an expression over `cog` emits one mixing warning and reads exactly `cog`. -/
theorem c6_expression_wins_witness :
    (AssetReader.tile demoEnv { alternate_url := none } cogItemNoAlt
        0 0 0 ["b04"] (some "cog") false).1 = [WarningKind.expressionMixing]
      ∧ (AssetReader.tile demoEnv { alternate_url := none } cogItemNoAlt
          0 0 0 ["b04"] (some "cog") false).2
        = .ok ({ band_names := ["cog_1"] }, ["cog"]) := by
  have h := c6_expression_wins demoEnv { alternate_url := none } cogItemNoAlt
    0 0 0 ["b04"] "cog" false rfl (by simp) (by simp)
  refine ⟨h.1, ?_⟩
  rw [h.2.2 (by simp [demoEnv])]
  rfl

/-! ## Mosaic backend: item search, TTL cache, mosaic compositing
(`backend.py`) -/

/-- The `STACAPIBackend` construction parameters used by `get_assets`:
catalog base URL and request headers. -/
structure BackendCfg where
  url : String
  headers : List (String × String)
deriving DecidableEq, Repr

/-- The search request handed to the transport collaborator
(`ItemSearch`/`StacApiIO`): endpoint, headers, `intersects` geometry,
field projection and the passthrough query filters with any literal `bbox`
key stripped (`params.pop("bbox", None)`). -/
structure SearchRequest where
  url : String
  headers : List (String × String)
  intersects : String
  fields : List String
  query : List (String × String)
deriving DecidableEq, Repr

/-- The default field projection of `get_assets`. -/
def defaultFields : List String := ["assets", "id", "bbox", "collection"]

/-- Assembly of the search parameters (backend.py lines 157-173). -/
def buildSearchRequest (B : BackendCfg) (geom : String)
    (searchQuery : Option (List (String × String)))
    (fields : Option (List String)) : SearchRequest :=
  { url := B.url ++ "/search", headers := B.headers, intersects := geom,
    fields := fields.getD defaultFields,
    query := (searchQuery.getD []).filter fun kv => ¬ (kv.1 = "bbox") }

/-- The memoization key tuple type of the `@cached` decorator:
`hashkey(self.url, str(geom), json.dumps(search_query),
json.dumps(self.headers))`. -/
abbrev CacheKey := String × String × String × String

/-- An opaque stand-in for the serialization of a key component
(`json.dumps`); identical inputs serialize identically, which is all the
cache-key reasoning uses. -/
def serializeKV (l : List (String × String)) : String :=
  l.foldl (fun acc kv => acc ++ "|" ++ kv.1 ++ ":" ++ kv.2) ""

/-- `json.dumps` of the raw `search_query` argument (`None` dumps to
`null`; the decorator key is computed before the body's `or {}` default). -/
def serializeQuery : Option (List (String × String)) → String
  | none => "null"
  | some q => "q:" ++ serializeKV q

/-- The cache key of a `get_assets` call that omits `fields`. -/
def cacheKey (B : BackendCfg) (geom : String)
    (q : Option (List (String × String))) : CacheKey :=
  (B.url, geom, serializeQuery q, serializeKV B.headers)

/-- One entry of the TTL cache: key, cached item list, absolute expiry
instant (insertion time plus time-to-live). -/
structure CacheEntry where
  key : CacheKey
  value : List Item
  expires : Nat
deriving DecidableEq, Repr

/-- Modelled from the spec: the state of the bounded `cachetools.TTLCache`
behind `get_assets` (§3 MosaicCacheEntry) — a list of entries, newest
first. -/
structure CacheState where
  entries : List CacheEntry
deriving DecidableEq, Repr

/-- The cache's configuration surface (`CacheSettings`): capacity bound and
time-to-live. -/
structure CacheConfig where
  maxsize : Nat
  ttl : Nat
deriving DecidableEq, Repr

/-- Modelled from the spec: a cache read returns the stored list only while
the entry's time-to-live has not elapsed (valid iff `now < expires`). -/
def cacheLookup (st : CacheState) (k : CacheKey) (now : Nat) :
    Option (List Item) :=
  match st.entries.find? fun e => e.key = k with
  | some e => if now < e.expires then some e.value else none
  | none => none

/-- Modelled from the spec: cache population — the fresh entry replaces any
previous entry of the same key and the total entry count stays bounded by
evicting oldest entries first (§3: time- and capacity-based eviction). -/
def cacheInsert (ccfg : CacheConfig) (st : CacheState) (k : CacheKey)
    (v : List Item) (now : Nat) : CacheState :=
  { entries :=
      ({ key := k, value := v, expires := now + ccfg.ttl } ::
          st.entries.filter fun e => ¬ (e.key = k)).take ccfg.maxsize }

/-- A freshly inserted entry is served back exactly while its time-to-live
lasts (the capacity bound must admit at least one entry). -/
theorem cacheLookup_insert (ccfg : CacheConfig) (st : CacheState)
    (k : CacheKey) (v : List Item) (t0 t1 : Nat) (hm : 1 ≤ ccfg.maxsize) :
    cacheLookup (cacheInsert ccfg st k v t0) k t1
      = if t1 < t0 + ccfg.ttl then some v else none := by
  unfold cacheInsert cacheLookup
  obtain ⟨m, hmeq⟩ : ∃ m, ccfg.maxsize = m + 1 := ⟨ccfg.maxsize - 1, by omega⟩
  rw [hmeq, List.take_succ_cons, List.find?_cons_of_pos _ (by simp)]

/-- `STACAPIBackend.get_assets` (backend.py lines 140-181).  The `@cached`
decorator's key lambda accepts `fields` only through `**kwargs` and feeds it
to `hashkey`; a list value makes the key tuple unhashable, so the cache
lookup raises `TypeError` before any search request is issued.  With
`fields` omitted, the call is served from the TTL cache when the key is
fresh, and otherwise invokes the search transport and stores the result
(the returned Bool records whether the transport was invoked). -/
def STACAPIBackend.getAssets (B : BackendCfg)
    (transport : SearchRequest → List Item) (ccfg : CacheConfig)
    (st : CacheState) (now : Nat) (geom : String)
    (searchQuery : Option (List (String × String)))
    (fields : Option (List String)) :
    Except Err (List Item × CacheState × Bool) :=
  match fields with
  | some _ => .error .typeError
  | none =>
    match cacheLookup st (cacheKey B geom searchQuery) now with
    | some v => .ok (v, st, false)
    | none =>
      .ok (transport (buildSearchRequest B geom searchQuery none),
        cacheInsert ccfg st (cacheKey B geom searchQuery)
          (transport (buildSearchRequest B geom searchQuery none)) now,
        true)

/-- External collaborators of the mosaic tile path: the per-item read
(`AssetReader.tile` wrapped by `_reader`; `none` when the item yields no
usable image), the coverage test and image combination of the mosaicking
strategy, and the tile-footprint geometry construction
(`tms.bounds`/`Polygon.from_bounds`). -/
structure MosaicEnv where
  itemRead : Item → Option ImageData
  enough : List ImageData → Bool
  combine : List ImageData → ImageData
  tileGeom : Int → Int → Int → String

/-- Modelled from the spec: the generic order-preserving first-success
mosaic merge (`rio_tiler.mosaic.mosaic_reader`, external): iterate the
candidates in search order, keep each usable image, and stop once the
accumulated canvas suffices (§4.5 Step 3).  Returns the contributing images
and the contributing items, both in search order. -/
def mosaicGo (read : Item → Option ImageData)
    (enough : List ImageData → Bool) :
    List Item → List ImageData → List ImageData × List Item
  | [], _ => ([], [])
  | i :: rest, acc =>
    match read i with
    | none => mosaicGo read enough rest acc
    | some img =>
      if enough (acc ++ [img]) then ([img], [i])
      else
        let r := mosaicGo read enough rest (acc ++ [img])
        (img :: r.1, i :: r.2)

/-- The mosaic merge over a candidate list: combined image plus the list of
items actually contributing pixels. -/
def mosaicReader (menv : MosaicEnv) (items : List Item) :
    ImageData × List Item :=
  let r := mosaicGo menv.itemRead menv.enough items []
  (menv.combine r.1, r.2)

/-- The contributing items of the mosaic merge always form a sublist of the
candidates: a subset preserving search order. -/
theorem mosaicGo_used_sublist (read : Item → Option ImageData)
    (enough : List ImageData → Bool) (items : List Item)
    (acc : List ImageData) :
    List.Sublist (mosaicGo read enough items acc).2 items := by
  induction items generalizing acc with
  | nil => simp [mosaicGo]
  | cons i rest ih =>
    unfold mosaicGo
    cases read i with
    | none => exact (ih acc).cons i
    | some img =>
      cases h : enough (acc ++ [img]) with
      | true =>
        simp only [h, if_true]
        exact (List.nil_sublist rest).cons₂ i
      | false =>
        simp only [h, Bool.false_eq_true, if_false]
        exact (ih (acc ++ [img])).cons₂ i

/-- `STACAPIBackend.tile` (backend.py lines 187-226): search the items for
the tile footprint through the cached `get_assets`, fail with
`NoAssetFoundError` when the search result is empty, and otherwise composite
through the first-success mosaic merge, returning the contributing items. -/
def STACAPIBackend.tile (B : BackendCfg)
    (transport : SearchRequest → List Item) (ccfg : CacheConfig)
    (menv : MosaicEnv) (st : CacheState) (now : Nat) (x y z : Int)
    (searchQuery : Option (List (String × String))) :
    Except Err ((ImageData × List Item) × CacheState) :=
  match STACAPIBackend.getAssets B transport ccfg st now
      (menv.tileGeom x y z) searchQuery none with
  | .error e => .error e
  | .ok (items, st1, _) =>
    if items = [] then .error .noAssetFound
    else .ok (mosaicReader menv items, st1)

/-- C7: a mosaic `tile()` call over an empty search result fails with
`NoAssetFoundError` (a no-data outcome, distinct from a transport failure,
which would surface as the transport's own exception, and from a
decoded-but-empty image, which is a successful result); over a non-empty
result it succeeds and the contributing item identifiers form a sublist —
hence an order-preserving subset — of the searched items' identifiers. -/
theorem c7_mosaic_tile (B : BackendCfg)
    (transport : SearchRequest → List Item) (ccfg : CacheConfig)
    (menv : MosaicEnv) (st : CacheState) (now : Nat) (x y z : Int)
    (q : Option (List (String × String))) (items : List Item)
    (st1 : CacheState) (b : Bool)
    (h : STACAPIBackend.getAssets B transport ccfg st now
          (menv.tileGeom x y z) q none = .ok (items, st1, b)) :
    (items = [] →
        STACAPIBackend.tile B transport ccfg menv st now x y z q
          = .error .noAssetFound)
      ∧ (items ≠ [] →
        STACAPIBackend.tile B transport ccfg menv st now x y z q
            = .ok (mosaicReader menv items, st1)
          ∧ List.Sublist ((mosaicReader menv items).2.map Item.id)
              (items.map Item.id)
          ∧ (mosaicReader menv items).2.map Item.id ⊆ items.map Item.id) := by
  have hs : List.Sublist ((mosaicReader menv items).2.map Item.id)
      (items.map Item.id) :=
    (mosaicGo_used_sublist menv.itemRead menv.enough items []).map Item.id
  constructor
  · intro hempty
    unfold STACAPIBackend.tile
    simp [h, hempty]
  · intro hne
    refine ⟨?_, hs, hs.subset⟩
    unfold STACAPIBackend.tile
    simp only [h, if_neg hne]

/-- A concrete mosaic environment for the witnesses: every item reads to a
one-band image, coverage is reached immediately, images combine by band
concatenation. -/
def demoMosaicEnv : MosaicEnv :=
  { itemRead := fun _ => some { band_names := ["b1"] }
    enough := fun _ => true
    combine := mergeImages
    tileGeom := fun _ _ _ => "geom-0-0-0" }

/-- A concrete backend configuration for the witnesses. -/
def demoBackend : BackendCfg :=
  { url := "https://stac.example.com", headers := [] }

/-- A concrete transport returning one item for every request. -/
def demoTransport : SearchRequest → List Item :=
  fun _ => [cogItemNoAlt]

/-- Witness for `c7_mosaic_tile`: one searched item, contributing alone. -/
theorem c7_mosaic_tile_witness :
    STACAPIBackend.tile demoBackend demoTransport { maxsize := 512, ttl := 300 }
        demoMosaicEnv { entries := [] } 0 0 0 0 none
      = .ok (mosaicReader demoMosaicEnv [cogItemNoAlt],
          cacheInsert { maxsize := 512, ttl := 300 } { entries := [] }
            (cacheKey demoBackend "geom-0-0-0" none) [cogItemNoAlt] 0)
    ∧ ((mosaicReader demoMosaicEnv [cogItemNoAlt]).2.map Item.id
        ⊆ [cogItemNoAlt].map Item.id) := by
  have h := c7_mosaic_tile demoBackend demoTransport
    { maxsize := 512, ttl := 300 } demoMosaicEnv { entries := [] } 0 0 0 0
    none [cogItemNoAlt]
    (cacheInsert { maxsize := 512, ttl := 300 } { entries := [] }
      (cacheKey demoBackend "geom-0-0-0" none) [cogItemNoAlt] 0) true rfl
  have h2 := h.2 (by simp)
  exact ⟨h2.1, h2.2.2⟩

/-- C8: starting from a state where the key (catalog URL, geometry, search
query, headers) is not freshly cached, a `get_assets` call at `t0` invokes
the transport; an identical call within the time-to-live window returns the
cached item list without invoking the transport (so the pair invokes it
exactly once); an identical call at or after expiry invokes the transport
again. -/
theorem c8_search_cache (B : BackendCfg)
    (transport : SearchRequest → List Item) (ccfg : CacheConfig)
    (st : CacheState) (t0 t1 t2 : Nat) (geom : String)
    (q : Option (List (String × String)))
    (hm : 1 ≤ ccfg.maxsize)
    (hcold : cacheLookup st (cacheKey B geom q) t0 = none)
    (hwin : t1 < t0 + ccfg.ttl)
    (hexp : t0 + ccfg.ttl ≤ t2) :
    ∃ items st1,
      STACAPIBackend.getAssets B transport ccfg st t0 geom q none
          = .ok (items, st1, true)
        ∧ STACAPIBackend.getAssets B transport ccfg st1 t1 geom q none
          = .ok (items, st1, false)
        ∧ ∃ st2,
            STACAPIBackend.getAssets B transport ccfg st1 t2 geom q none
              = .ok (transport (buildSearchRequest B geom q none), st2, true) := by
  refine ⟨transport (buildSearchRequest B geom q none),
    cacheInsert ccfg st (cacheKey B geom q)
      (transport (buildSearchRequest B geom q none)) t0, ?_, ?_, ?_⟩
  · unfold STACAPIBackend.getAssets
    simp only [hcold]
  · unfold STACAPIBackend.getAssets
    rw [cacheLookup_insert ccfg st (cacheKey B geom q) _ t0 t1 hm, if_pos hwin]
  · refine ⟨cacheInsert ccfg
      (cacheInsert ccfg st (cacheKey B geom q)
        (transport (buildSearchRequest B geom q none)) t0)
      (cacheKey B geom q) (transport (buildSearchRequest B geom q none)) t2, ?_⟩
    unfold STACAPIBackend.getAssets
    rw [cacheLookup_insert ccfg st (cacheKey B geom q) _ t0 t2 hm,
      if_neg (by omega)]

/-- Witness for `c8_search_cache`: cold cache at time 0, second call at
time 1 (inside a 300-second time-to-live), third call at time 300. -/
theorem c8_search_cache_witness :
    ∃ items st1,
      STACAPIBackend.getAssets demoBackend demoTransport
          { maxsize := 512, ttl := 300 } { entries := [] } 0 "geom" none none
          = .ok (items, st1, true)
        ∧ STACAPIBackend.getAssets demoBackend demoTransport
            { maxsize := 512, ttl := 300 } st1 1 "geom" none none
          = .ok (items, st1, false)
        ∧ ∃ st2,
            STACAPIBackend.getAssets demoBackend demoTransport
              { maxsize := 512, ttl := 300 } st1 300 "geom" none none
            = .ok (demoTransport
                (buildSearchRequest demoBackend "geom" none none), st2, true) :=
  c8_search_cache demoBackend demoTransport { maxsize := 512, ttl := 300 }
    { entries := [] } 0 1 300 "geom" none (by decide) rfl (by decide) (by decide)

/-- C10: a `get_assets` call passing a (non-`None`) list for `fields` fails
with `TypeError` during the memoized key computation, before any search
request is issued; a call omitting `fields` always completes, and its
request carries the default projection (assets, id, bbox, collection). -/
theorem c10_fields_unhashable (B : BackendCfg)
    (transport : SearchRequest → List Item) (ccfg : CacheConfig)
    (st : CacheState) (now : Nat) (geom : String)
    (q : Option (List (String × String))) (fl : List String) :
    STACAPIBackend.getAssets B transport ccfg st now geom q (some fl)
        = .error .typeError
      ∧ (∃ r, STACAPIBackend.getAssets B transport ccfg st now geom q none
          = .ok r)
      ∧ (buildSearchRequest B geom q none).fields = defaultFields := by
  refine ⟨rfl, ?_, rfl⟩
  unfold STACAPIBackend.getAssets
  cases hlk : cacheLookup st (cacheKey B geom q) now with
  | none =>
    exact ⟨(transport (buildSearchRequest B geom q none),
      cacheInsert ccfg st (cacheKey B geom q)
        (transport (buildSearchRequest B geom q none)) now, true),
      by simp only [hlk]⟩
  | some v => exact ⟨(v, st, false), by simp only [hlk]⟩

end TitilerStacapi
